import Mathlib

/-
Verification of the issue-tracker server logic (src/server/storage.ts and
src/server/routes.ts, with the shared drizzle-zod schema).  Timestamps are
modelled as natural numbers (milliseconds since the epoch); the JS
`new Date()` calls become explicit `now : Nat` parameters, and `randomUUID`
becomes an explicit identifier parameter.  JS `Map` iteration order is
insertion order, so the stores are lists in insertion order where `set` on an
existing key replaces in place and `set` on a fresh key appends.
-/

namespace IssueTracker

/-- Milliseconds in one day; `setHours(0,0,0,0)` (local midnight) is modelled
as truncation of the epoch-millisecond clock to a multiple of `dayLen`. -/
def dayLen : Nat := 86400000

/-- Start of the calendar day containing instant `t`. -/
def startOfDay (t : Nat) : Nat := t / dayLen * dayLen

/-- JS `v || d` for an optional string field: absent, and the falsy empty
string, both fall back to the default. -/
def jsOr (v : Option String) (d : String) : String :=
  match v with
  | none => d
  | some s => if s = "" then d else s

/-- JS `v || null` for a field that may be absent, null, or a string:
absent, null and the empty string all become null. -/
def jsOrNull (v : Option (Option String)) : Option String :=
  match v with
  | none => none
  | some none => none
  | some (some s) => if s = "" then none else some s

/-- A stored issue row (table `issues` in shared/schema.ts). -/
structure Issue where
  id : String
  title : String
  description : String
  customerName : String
  customerEmail : String
  priority : String
  status : String
  assignedTo : Option String
  createdAt : Nat
  updatedAt : Nat
deriving Repr, DecidableEq

/-- A stored comment row (table `comments` in shared/schema.ts); `isInternal`
is a stringly-typed flag in the source. -/
structure Comment where
  id : String
  issueId : String
  author : String
  content : String
  isInternal : String
  createdAt : Nat
deriving Repr, DecidableEq

/-- `InsertIssue` (z.infer of `insertIssueSchema`): the insert schema omits
id and timestamps; columns with defaults (`status`, `priority`) are optional,
`assignedTo` is optional and nullable. -/
structure InsertIssue where
  title : String
  description : String
  customerName : String
  customerEmail : String
  priority : Option String
  status : Option String
  assignedTo : Option (Option String)
deriving Repr, DecidableEq

/-- `Partial<InsertIssue>`: every key may be absent.  A present `assignedTo`
may itself be null (`some none`), the one way a field can be unset. -/
structure IssueUpdates where
  title : Option String
  description : Option String
  customerName : Option String
  customerEmail : Option String
  priority : Option String
  status : Option String
  assignedTo : Option (Option String)
deriving Repr, DecidableEq

/-- `InsertComment` (z.infer of `insertCommentSchema`): id and createdAt are
omitted; `isInternal` has a column default so it is optional. -/
structure InsertComment where
  issueId : String
  author : String
  content : String
  isInternal : Option String
deriving Repr, DecidableEq

/-- The record returned by `getIssueStats`. -/
structure IssueStats where
  openIssues : Nat
  inProgress : Nat
  resolvedToday : Nat
  urgent : Nat
deriving Repr, DecidableEq

/-- The in-memory realization's state: the two `Map`s that the issue and
comment workflows touch, as lists in insertion order. -/
structure MemStorage where
  issues : List Issue
  comments : List Comment
deriving Repr, DecidableEq

/-- JS `Map.set` on the issues map: replace in place when the key exists,
append otherwise. -/
def mapSetIssue (l : List Issue) (i : Issue) : List Issue :=
  if l.any (fun j => j.id == i.id) then
    l.map (fun j => if j.id == i.id then i else j)
  else l ++ [i]

/-- `MemStorage.getIssue`: `this.issues.get(id)`. -/
def MemStorage.getIssue (s : MemStorage) (id : String) : Option Issue :=
  s.issues.find? (fun i => i.id == id)

/-- `MemStorage.createIssue`: builds the record with `||` defaults for
status, priority and assignee, fresh id and both timestamps set to now,
stores it and returns it. -/
def MemStorage.createIssue (s : MemStorage) (ins : InsertIssue)
    (newId : String) (now : Nat) : Issue × MemStorage :=
  let issue : Issue :=
    { id := newId
      title := ins.title
      description := ins.description
      customerName := ins.customerName
      customerEmail := ins.customerEmail
      priority := jsOr ins.priority "medium"
      status := jsOr ins.status "open"
      assignedTo := jsOrNull ins.assignedTo
      createdAt := now
      updatedAt := now }
  (issue, { s with issues := mapSetIssue s.issues issue })

/-- The spread `{ ...issue, ...updates, updatedAt: new Date() }`: a present
key overwrites, an absent key leaves the field unchanged, and `updatedAt` is
always refreshed. -/
def applyUpdates (i : Issue) (u : IssueUpdates) (now : Nat) : Issue :=
  { i with
    title := u.title.getD i.title
    description := u.description.getD i.description
    customerName := u.customerName.getD i.customerName
    customerEmail := u.customerEmail.getD i.customerEmail
    priority := u.priority.getD i.priority
    status := u.status.getD i.status
    assignedTo := u.assignedTo.getD i.assignedTo
    updatedAt := now }

/-- `MemStorage.updateIssue`: looks the issue up, returns undefined when the
id is unknown, otherwise merges the updates, stores and returns the new
record. -/
def MemStorage.updateIssue (s : MemStorage) (id : String) (u : IssueUpdates)
    (now : Nat) : Option Issue × MemStorage :=
  match s.issues.find? (fun i => i.id == id) with
  | none => (none, s)
  | some i =>
    let updated := applyUpdates i u now
    (some updated, { s with issues := mapSetIssue s.issues updated })

/-- `MemStorage.createComment`: defaults `isInternal` to "false" via `||`,
assigns id and createdAt, stores and returns the record. -/
def MemStorage.createComment (s : MemStorage) (ins : InsertComment)
    (newId : String) (now : Nat) : Comment × MemStorage :=
  let c : Comment :=
    { id := newId
      issueId := ins.issueId
      author := ins.author
      content := ins.content
      isInternal := jsOr ins.isInternal "false"
      createdAt := now }
  (c, { s with comments := s.comments ++ [c] })

/-- `MemStorage.getCommentsByIssueId`: filter on the owning issue id, then
sort by createdAt ascending (`a.createdAt - b.createdAt` comparator). -/
def MemStorage.getCommentsByIssueId (s : MemStorage) (issueId : String) :
    List Comment :=
  (s.comments.filter (fun c => c.issueId == issueId)).mergeSort
    (fun a b => decide (a.createdAt ≤ b.createdAt))

/-- `MemStorage.getIssueStats`: full scan; `today` is local midnight of the
current day and the resolved-today filter is `updatedAt >= today`. -/
def MemStorage.getIssueStats (s : MemStorage) (now : Nat) : IssueStats :=
  let today := startOfDay now
  { openIssues := (s.issues.filter (fun i => i.status == "open")).length
    inProgress := (s.issues.filter (fun i => i.status == "in-progress")).length
    resolvedToday := (s.issues.filter (fun i =>
      i.status == "resolved" && today ≤ i.updatedAt)).length
    urgent := (s.issues.filter (fun i => i.priority == "urgent")).length }

/-- The spec's reading of resolved-today: status resolved and updated-at on
the current calendar day (same local-midnight-bounded day as now). -/
def specResolvedToday (i : Issue) (now : Nat) : Bool :=
  i.status == "resolved" && (i.updatedAt / dayLen == now / dayLen)

/-- Statistics as the spec words them: resolved-today counts issues whose
updated-at falls on the current calendar day. -/
def specIssueStats (s : MemStorage) (now : Nat) : IssueStats :=
  { openIssues := (s.issues.filter (fun i => i.status == "open")).length
    inProgress := (s.issues.filter (fun i => i.status == "in-progress")).length
    resolvedToday := (s.issues.filter (fun i => specResolvedToday i now)).length
    urgent := (s.issues.filter (fun i => i.priority == "urgent")).length }

/-- One data-access call made by a request handler; handlers return the
list of calls they performed, in order. -/
inductive StorageCall where
  | getIssueCall (id : String)
  | createIssueCall
  | updateIssueCall (id : String)
  | createCommentCall
deriving Repr, DecidableEq

/-- The outcome a handler sends: 200/201 with a value, 404 with a message,
or 400 with a message. -/
inductive ApiResult (α : Type) where
  | ok (value : α)
  | notFound (message : String)
  | badRequest (message : String)
deriving Repr, DecidableEq

/-- A raw JSON body for POST /api/issues, before zod validation: every key
may be absent, and `assignedTo` may be present-but-null. -/
structure RawIssueBody where
  title : Option String
  description : Option String
  customerName : Option String
  customerEmail : Option String
  priority : Option String
  status : Option String
  assignedTo : Option (Option String)
deriving Repr, DecidableEq

/-- A raw JSON body for POST /api/issues/:id/comments. -/
structure RawCommentBody where
  issueId : Option String
  author : Option String
  content : Option String
  isInternal : Option String
deriving Repr, DecidableEq

/-- `insertIssueSchema.parse`: the four not-null no-default text columns are
required; `status`, `priority` and `assignedTo` are optional (any string is
accepted for them — the columns are plain text, so the generated schema does
not check enum membership). -/
def parseInsertIssue (b : RawIssueBody) : Except String InsertIssue :=
  match b.title, b.description, b.customerName, b.customerEmail with
  | some t, some d, some cn, some ce =>
    Except.ok
      { title := t
        description := d
        customerName := cn
        customerEmail := ce
        priority := b.priority
        status := b.status
        assignedTo := b.assignedTo }
  | _, _, _, _ => Except.error "Required"

/-- `insertCommentSchema.parse`: `issueId`, `author` and `content` are
required; `isInternal` has a default so it is optional. -/
def parseInsertComment (b : RawCommentBody) : Except String InsertComment :=
  match b.issueId, b.author, b.content with
  | some iid, some a, some c =>
    Except.ok { issueId := iid, author := a, content := c, isInternal := b.isInternal }
  | _, _, _ => Except.error "Required"

/-- `{ ...req.body, issueId: id }`: the path parameter overwrites whatever
issueId the body carried. -/
def setIssueId (b : RawCommentBody) (id : String) : RawCommentBody :=
  { b with issueId := some id }

/-- POST /api/issues: parse the body with the shared schema (400 with the
error message on failure, before any data access), then createIssue and
reply 201 with the record. -/
def postIssue (s : MemStorage) (b : RawIssueBody) (newId : String)
    (now : Nat) : ApiResult Issue × MemStorage × List StorageCall :=
  match parseInsertIssue b with
  | Except.error m => (ApiResult.badRequest m, s, [])
  | Except.ok ins =>
    let r := s.createIssue ins newId now
    (ApiResult.ok r.1, r.2, [StorageCall.createIssueCall])

/-- PATCH /api/issues/:id: the body is passed to updateIssue as-is — the
handler performs no validation; 404 when updateIssue returns undefined. -/
def patchIssue (s : MemStorage) (id : String) (b : IssueUpdates)
    (now : Nat) : ApiResult Issue × MemStorage × List StorageCall :=
  match s.updateIssue id b now with
  | (none, s2) => (ApiResult.notFound "Issue not found", s2, [StorageCall.updateIssueCall id])
  | (some i, s2) => (ApiResult.ok i, s2, [StorageCall.updateIssueCall id])

/-- POST /api/issues/:id/comments: first getIssue (404 when the parent does
not exist), then overwrite the body's issueId with the path parameter,
validate, and createComment on success. -/
def postComment (s : MemStorage) (id : String) (b : RawCommentBody)
    (newId : String) (now : Nat) :
    ApiResult Comment × MemStorage × List StorageCall :=
  match s.getIssue id with
  | none => (ApiResult.notFound "Issue not found", s, [StorageCall.getIssueCall id])
  | some _ =>
    match parseInsertComment (setIssueId b id) with
    | Except.error m => (ApiResult.badRequest m, s, [StorageCall.getIssueCall id])
    | Except.ok ins =>
      let r := s.createComment ins newId now
      (ApiResult.ok r.1, r.2, [StorageCall.getIssueCall id, StorageCall.createCommentCall])

/-- On any instant no later than now, lying at or after today's midnight is
the same as lying on today's calendar day. -/
theorem startOfDay_le_iff_sameDay (u now : Nat) (h : u ≤ now) :
    (startOfDay now ≤ u) ↔ (u / dayLen = now / dayLen) := by
  unfold startOfDay
  constructor
  · intro hle
    exact Nat.le_antisymm (Nat.div_le_div_right h)
      ((Nat.le_div_iff_mul_le (by decide)).mpr hle)
  · intro heq
    rw [← heq]
    exact Nat.div_mul_le_self u dayLen

/-- Pointwise agreement of the code's resolved-today test with the spec's,
for timestamps not in the future. -/
theorem resolvedToday_agrees (i : Issue) (now : Nat) (h : i.updatedAt ≤ now) :
    (i.status == "resolved" && decide (startOfDay now ≤ i.updatedAt)) =
      specResolvedToday i now := by
  unfold specResolvedToday
  congr 1
  rw [Bool.eq_iff_iff]
  simp only [decide_eq_true_eq, beq_iff_eq]
  exact startOfDay_le_iff_sameDay i.updatedAt now h

/-- Example issue A of the spec's stats test: open. -/
def issueA : Issue :=
  { id := "A", title := "a", description := "a", customerName := "n"
    customerEmail := "e", priority := "low", status := "open"
    assignedTo := none, createdAt := 0, updatedAt := 0 }

/-- Example issue B: in progress. -/
def issueB : Issue :=
  { issueA with id := "B", status := "in-progress" }

/-- Example issue C: resolved, updated today (day 1). -/
def issueC : Issue :=
  { issueA with id := "C", status := "resolved", updatedAt := dayLen + 500 }

/-- Example issue D: resolved, updated yesterday (day 0). -/
def issueD : Issue :=
  { issueA with id := "D", status := "resolved", updatedAt := 500 }

/-- Example issue E: urgent and open. -/
def issueE : Issue :=
  { issueA with id := "E", priority := "urgent" }

/-- The spec's five-issue store. -/
def statsStore : MemStorage :=
  { issues := [issueA, issueB, issueC, issueD, issueE], comments := [] }

/-- A current instant on day 1, later than every timestamp above. -/
def statsNow : Nat := dayLen + 1000

/-- C1: when no stored updated-at lies in the future of the clock,
getIssueStats counts open, in-progress, resolved-on-the-current-calendar-day
and urgent issues exactly as the spec states; on the five-issue example the
counts are 2, 1, 1, 1. -/
theorem c1_getIssueStats_correct :
    (∀ (s : MemStorage) (now : Nat), (∀ i ∈ s.issues, i.updatedAt ≤ now) →
      s.getIssueStats now = specIssueStats s now) ∧
    statsStore.getIssueStats statsNow =
      { openIssues := 2, inProgress := 1, resolvedToday := 1, urgent := 1 } := by
  constructor
  · intro s now h
    unfold MemStorage.getIssueStats specIssueStats
    have hfilter : s.issues.filter
        (fun i => i.status == "resolved" && decide (startOfDay now ≤ i.updatedAt)) =
        s.issues.filter (fun i => specResolvedToday i now) :=
      List.filter_congr (fun i hi => resolvedToday_agrees i now (h i hi))
    simp only [IssueStats.mk.injEq, and_true, true_and]
    rw [hfilter]
  · decide

/-- Witness for C1 at the five-issue example store. -/
theorem c1_getIssueStats_correct_witness :
    (∀ i ∈ statsStore.issues, i.updatedAt ≤ statsNow) ∧
      statsStore.getIssueStats statsNow = specIssueStats statsStore statsNow :=
  ⟨by decide, c1_getIssueStats_correct.1 statsStore statsNow (by decide)⟩

/-- A customer submission that carries status "resolved". -/
def resolvedBody : RawIssueBody :=
  { title := some "t", description := some "d", customerName := some "n"
    customerEmail := some "e", priority := none, status := some "resolved"
    assignedTo := none }

/-- The record POST /api/issues stores and returns for `resolvedBody`. -/
def resolvedBodyIssue : Issue :=
  { id := "i1", title := "t", description := "d", customerName := "n"
    customerEmail := "e", priority := "medium", status := "resolved"
    assignedTo := none, createdAt := 7, updatedAt := 7 }

/-- C2 counterexample: it is not true that every issue created through
POST /api/issues has status "open" — a submission carrying status
"resolved" is stored and returned with status "resolved". -/
theorem c2_status_forced_open_false :
    ¬ (∀ (s : MemStorage) (b : RawIssueBody) (newId : String) (now : Nat)
        (i : Issue) (s2 : MemStorage) (tr : List StorageCall),
        postIssue s b newId now = (ApiResult.ok i, s2, tr) →
        i.status = "open") := by
  intro h
  have h2 := h { issues := [], comments := [] } resolvedBody "i1" 7
    resolvedBodyIssue
    { issues := [resolvedBodyIssue], comments := [] }
    [StorageCall.createIssueCall] (by decide)
  exact absurd h2 (by decide)

/-- C2 amended: POST /api/issues stores status "open" only when the
submission omits status or supplies the empty string; a supplied non-empty
status value is stored as-is.  Priority behaves the same way around its
default "medium". -/
theorem c2_status_default_only (s : MemStorage) (b : RawIssueBody)
    (newId : String) (now : Nat) (i : Issue) (s2 : MemStorage)
    (tr : List StorageCall)
    (h : postIssue s b newId now = (ApiResult.ok i, s2, tr)) :
    (b.status = none → i.status = "open") ∧
    (b.status = some "" → i.status = "open") ∧
    (∀ v, b.status = some v → v ≠ "" → i.status = v) := by
  have hst : i.status = jsOr b.status "open" := by
    unfold postIssue at h
    cases hp : parseInsertIssue b with
    | error m => rw [hp] at h; cases h
    | ok ins =>
      rw [hp] at h
      have hi : (s.createIssue ins newId now).1 = i := by
        have := congrArg Prod.fst h
        simpa using this
      have hbs : ins.status = b.status := by
        unfold parseInsertIssue at hp
        split at hp
        · cases hp; rfl
        · cases hp
      rw [← hi]
      unfold MemStorage.createIssue
      rw [hbs]
  refine ⟨?_, ?_, ?_⟩
  · intro hb; rw [hst, hb]; rfl
  · intro hb; rw [hst, hb]; rfl
  · intro v hb hv; rw [hst, hb]; simp [jsOr, hv]

/-- Witness for C2's amended theorem: a submission omitting status is
created with status "open". -/
theorem c2_status_default_only_witness :
    postIssue { issues := [], comments := [] }
        { resolvedBody with status := none } "i1" 7 =
      (ApiResult.ok { resolvedBodyIssue with status := "open" },
        { issues := [{ resolvedBodyIssue with status := "open" }], comments := [] },
        [StorageCall.createIssueCall]) ∧
    ({ resolvedBody with status := none } : RawIssueBody).status = none ∧
    ({ resolvedBodyIssue with status := "open" } : Issue).status = "open" := by
  refine ⟨by decide, rfl, ?_⟩
  exact (c2_status_default_only { issues := [], comments := [] }
    { resolvedBody with status := none } "i1" 7
    { resolvedBodyIssue with status := "open" }
    { issues := [{ resolvedBodyIssue with status := "open" }], comments := [] }
    [StorageCall.createIssueCall] (by decide)).1 rfl

/-- Setting a record whose id is not yet in the map makes lookup of that id
return it. -/
theorem getIssue_mapSet_fresh (l : List Issue) (a : Issue)
    (h : l.find? (fun i => i.id == a.id) = none) :
    (mapSetIssue l a).find? (fun i => i.id == a.id) = some a := by
  unfold mapSetIssue
  rw [if_neg]
  · rw [List.find?_append, h]
    simp
  · intro hany
    obtain ⟨x, hx, hpx⟩ := List.any_eq_true.mp hany
    exact absurd hpx (List.find?_eq_none.mp h x hx)

/-- C3: createIssue defaults status to "open", priority to "medium" and
assignee to absent when the input omits them, stamps the fresh identifier
and equal created-at/updated-at timestamps on the record, and (for an
identifier not already in the store) the value returned is exactly the
record stored under that identifier. -/
theorem c3_createIssue_defaults (s : MemStorage) (ins : InsertIssue)
    (newId : String) (now : Nat) (hfresh : s.getIssue newId = none) :
    (ins.status = none → (s.createIssue ins newId now).1.status = "open") ∧
    (ins.priority = none → (s.createIssue ins newId now).1.priority = "medium") ∧
    (ins.assignedTo = none → (s.createIssue ins newId now).1.assignedTo = none) ∧
    (s.createIssue ins newId now).1.id = newId ∧
    (s.createIssue ins newId now).1.createdAt = now ∧
    (s.createIssue ins newId now).1.updatedAt = now ∧
    (s.createIssue ins newId now).2.getIssue newId =
      some (s.createIssue ins newId now).1 := by
  refine ⟨?_, ?_, ?_, rfl, rfl, rfl, ?_⟩
  · intro h; unfold MemStorage.createIssue; rw [h]; rfl
  · intro h; unfold MemStorage.createIssue; rw [h]; rfl
  · intro h; unfold MemStorage.createIssue; rw [h]; rfl
  · unfold MemStorage.getIssue at hfresh ⊢
    exact getIssue_mapSet_fresh s.issues
      { id := newId, title := ins.title, description := ins.description
        customerName := ins.customerName, customerEmail := ins.customerEmail
        priority := jsOr ins.priority "medium", status := jsOr ins.status "open"
        assignedTo := jsOrNull ins.assignedTo, createdAt := now
        updatedAt := now } hfresh

/-- Witness for C3 at a concrete empty-store creation. -/
theorem c3_createIssue_defaults_witness :
    (MemStorage.getIssue { issues := [], comments := [] } "i1" = none) ∧
    (({ title := "t", description := "d", customerName := "n"
        customerEmail := "e", priority := none, status := none
        assignedTo := none } : InsertIssue).status = none →
      (MemStorage.createIssue { issues := [], comments := [] }
        { title := "t", description := "d", customerName := "n"
          customerEmail := "e", priority := none, status := none
          assignedTo := none } "i1" 7).1.status = "open") := by
  refine ⟨rfl, ?_⟩
  exact (c3_createIssue_defaults { issues := [], comments := [] }
    { title := "t", description := "d", customerName := "n"
      customerEmail := "e", priority := none, status := none
      assignedTo := none } "i1" 7 rfl).1

/-- Replacing every matching record leaves a record whose id differs
untouched and in place. -/
theorem mem_mapSet_of_ne (l : List Issue) (a x : Issue) (hx : x ∈ l)
    (hne : (x.id == a.id) = false) : x ∈ mapSetIssue l a := by
  unfold mapSetIssue
  split
  · refine List.mem_map.mpr ⟨x, hx, ?_⟩
    rw [if_neg]
    simp [hne]
  · exact List.mem_append_left _ hx

/-- After replacing the matching records by `a`, looking `a`'s key up finds
`a` (provided some record matched). -/
theorem find?_map_replace (p : Issue → Bool) (l : List Issue) (a : Issue)
    (hp : p a = true) (h : (l.find? p).isSome) :
    (l.map (fun j => if p j then a else j)).find? p = some a := by
  induction l with
  | nil => simp at h
  | cons b t ih =>
    by_cases hb : p b = true
    · rw [List.map_cons, if_pos hb, List.find?_cons_of_pos _ hp]
    · rw [List.map_cons, if_neg hb, List.find?_cons_of_neg _ hb]
      rw [List.find?_cons_of_neg _ hb] at h
      exact ih h

/-- `Map.set` on an existing key, then `get` of that key, returns the new
record. -/
theorem getIssue_mapSet_existing (l : List Issue) (a i : Issue)
    (h : l.find? (fun j => j.id == a.id) = some i) :
    (mapSetIssue l a).find? (fun j => j.id == a.id) = some a := by
  unfold mapSetIssue
  rw [if_pos]
  · refine find?_map_replace _ l a (by simp) ?_
    rw [h]
    rfl
  · have h1 := List.find?_some h
    exact List.any_eq_true.mpr ⟨i, List.mem_of_find?_eq_some h, h1⟩

/-- updateIssue on a present id returns the merged record and stores it over
the old one. -/
theorem updateIssue_found (s : MemStorage) (id : String) (u : IssueUpdates)
    (now : Nat) (i : Issue) (h : s.getIssue id = some i) :
    s.updateIssue id u now =
      (some (applyUpdates i u now),
        { s with issues := mapSetIssue s.issues (applyUpdates i u now) }) := by
  unfold MemStorage.getIssue at h
  unfold MemStorage.updateIssue
  rw [h]

/-- C4: updating an existing issue returns the merged record: every omitted
field is unchanged, updated-at is refreshed to now, identifier and
created-at are preserved, an explicit null assignee unsets the assignee,
every other issue is untouched (as are all comments), and the stored record
under that id is exactly the returned one. -/
theorem c4_updateIssue_merge (s : MemStorage) (id : String) (u : IssueUpdates)
    (now : Nat) (i : Issue) (h : s.getIssue id = some i) :
    (s.updateIssue id u now).1 = some (applyUpdates i u now) ∧
    (u.title = none → (applyUpdates i u now).title = i.title) ∧
    (u.description = none → (applyUpdates i u now).description = i.description) ∧
    (u.customerName = none → (applyUpdates i u now).customerName = i.customerName) ∧
    (u.customerEmail = none → (applyUpdates i u now).customerEmail = i.customerEmail) ∧
    (u.priority = none → (applyUpdates i u now).priority = i.priority) ∧
    (u.status = none → (applyUpdates i u now).status = i.status) ∧
    (u.assignedTo = none → (applyUpdates i u now).assignedTo = i.assignedTo) ∧
    (applyUpdates i u now).updatedAt = now ∧
    (applyUpdates i u now).createdAt = i.createdAt ∧
    (applyUpdates i u now).id = i.id ∧
    (u.assignedTo = some none → (applyUpdates i u now).assignedTo = none) ∧
    (∀ j ∈ s.issues, j.id ≠ id → j ∈ (s.updateIssue id u now).2.issues) ∧
    (s.updateIssue id u now).2.getIssue id = some (applyUpdates i u now) ∧
    (s.updateIssue id u now).2.comments = s.comments := by
  have hiid : i.id = id := by
    have := List.find?_some h
    simpa using this
  rw [updateIssue_found s id u now i h]
  subst hiid
  refine ⟨rfl, ?_, ?_, ?_, ?_, ?_, ?_, ?_, rfl, rfl, rfl, ?_, ?_, ?_, rfl⟩
  · intro hn; unfold applyUpdates; rw [hn]; rfl
  · intro hn; unfold applyUpdates; rw [hn]; rfl
  · intro hn; unfold applyUpdates; rw [hn]; rfl
  · intro hn; unfold applyUpdates; rw [hn]; rfl
  · intro hn; unfold applyUpdates; rw [hn]; rfl
  · intro hn; unfold applyUpdates; rw [hn]; rfl
  · intro hn; unfold applyUpdates; rw [hn]; rfl
  · intro hn; unfold applyUpdates; rw [hn]; rfl
  · intro j hj hne
    exact mem_mapSet_of_ne s.issues (applyUpdates i u now) j hj
      (beq_eq_false_iff_ne.mpr hne)
  · exact getIssue_mapSet_existing s.issues (applyUpdates i u now) i h

/-- A concrete partial update touching only the status field. -/
def statusOnlyUpdate : IssueUpdates :=
  { title := none, description := none, customerName := none
    customerEmail := none, priority := none, status := some "resolved"
    assignedTo := none }

/-- Witness for C4: patching only the status of a stored issue keeps its
title. -/
theorem c4_updateIssue_merge_witness :
    (MemStorage.getIssue { issues := [issueA], comments := [] } "A" = some issueA) ∧
    (statusOnlyUpdate.title = none →
      (applyUpdates issueA statusOnlyUpdate 9).title = issueA.title) := by
  refine ⟨rfl, ?_⟩
  exact (c4_updateIssue_merge { issues := [issueA], comments := [] } "A"
    statusOnlyUpdate 9 issueA rfl).2.1

/-- C5: for an id not in the store, updateIssue returns an absent result and
leaves the state untouched, and PATCH /api/issues/:id surfaces it as a
not-found response with the store unchanged, for any partial body. -/
theorem c5_patch_unknown_id (s : MemStorage) (id : String) (u : IssueUpdates)
    (now : Nat) (h : s.getIssue id = none) :
    s.updateIssue id u now = (none, s) ∧
    patchIssue s id u now =
      (ApiResult.notFound "Issue not found", s, [StorageCall.updateIssueCall id]) := by
  unfold MemStorage.getIssue at h
  have hu : s.updateIssue id u now = (none, s) := by
    unfold MemStorage.updateIssue
    rw [h]
  refine ⟨hu, ?_⟩
  unfold patchIssue
  rw [hu]

/-- Witness for C5: patching id "ghost" on the one-issue store. -/
theorem c5_patch_unknown_id_witness :
    (MemStorage.getIssue { issues := [issueA], comments := [] } "ghost" = none) ∧
    MemStorage.updateIssue { issues := [issueA], comments := [] } "ghost"
        statusOnlyUpdate 9 =
      (none, { issues := [issueA], comments := [] }) := by
  refine ⟨rfl, ?_⟩
  exact (c5_patch_unknown_id { issues := [issueA], comments := [] } "ghost"
    statusOnlyUpdate 9 rfl).1

/-- C6: posting a comment under an id with no issue responds not-found after
the single existence check, creating nothing and changing nothing; and every
request to this endpoint performs at most two data-access calls. -/
theorem c6_comment_missing_issue :
    (∀ (s : MemStorage) (id : String) (b : RawCommentBody) (newId : String)
        (now : Nat), s.getIssue id = none →
      postComment s id b newId now =
        (ApiResult.notFound "Issue not found", s, [StorageCall.getIssueCall id])) ∧
    (∀ (s : MemStorage) (id : String) (b : RawCommentBody) (newId : String)
        (now : Nat), (postComment s id b newId now).2.2.length ≤ 2) := by
  constructor
  · intro s id b newId now h
    unfold postComment
    rw [h]
  · intro s id b newId now
    unfold postComment
    cases s.getIssue id with
    | none => simp
    | some i =>
      cases parseInsertComment (setIssueId b id) with
      | error m => simp
      | ok ins => simp

/-- A concrete comment body with author and content supplied. -/
def helloCommentBody : RawCommentBody :=
  { issueId := none, author := some "me", content := some "hi"
    isInternal := none }

/-- Witness for C6: a comment posted under id "ghost" is rejected and the
store is unchanged. -/
theorem c6_comment_missing_issue_witness :
    (MemStorage.getIssue { issues := [issueA], comments := [] } "ghost" = none) ∧
    postComment { issues := [issueA], comments := [] } "ghost"
        helloCommentBody "c1" 9 =
      (ApiResult.notFound "Issue not found",
        { issues := [issueA], comments := [] },
        [StorageCall.getIssueCall "ghost"]) := by
  refine ⟨rfl, ?_⟩
  exact c6_comment_missing_issue.1 { issues := [issueA], comments := [] }
    "ghost" helloCommentBody "c1" 9 rfl

/-- Membership of the spec's status enumeration. -/
def validStatus (v : String) : Bool :=
  v == "open" || v == "in-progress" || v == "resolved"

/-- Membership of the spec's priority enumeration. -/
def validPriority (v : String) : Bool :=
  v == "low" || v == "medium" || v == "high" || v == "urgent"

/-- Modelled from the spec: a partial update satisfies the data model's
field constraints when any supplied status or priority is a member of its
enumeration. -/
def validUpdates (u : IssueUpdates) : Bool :=
  (match u.status with | none => true | some v => validStatus v) &&
  (match u.priority with | none => true | some v => validPriority v)

/-- A PATCH body carrying an out-of-enum status. -/
def bogusUpdate : IssueUpdates :=
  { statusOnlyUpdate with status := some "bogus" }

/-- C7 counterexample: the PATCH endpoint does not validate its body — an
out-of-enum status is not rejected; the handler invokes the data-access
layer and stores the bogus value. -/
theorem c7_validation_false :
    ¬ (∀ (s : MemStorage) (id : String) (u : IssueUpdates) (now : Nat),
        validUpdates u = false →
        (∃ m, (patchIssue s id u now).1 = ApiResult.badRequest m) ∧
        (patchIssue s id u now).2.1 = s ∧
        (patchIssue s id u now).2.2 = []) := by
  intro h
  obtain ⟨⟨m, hm⟩, -, -⟩ :=
    h { issues := [issueA], comments := [] } "A" bogusUpdate 9 (by decide)
  have hv : (patchIssue { issues := [issueA], comments := [] } "A"
      bogusUpdate 9).1 =
      ApiResult.ok { issueA with status := "bogus", updatedAt := 9 } := by decide
  rw [hv] at hm
  exact ApiResult.noConfusion hm

/-- C7 amended: POST /api/issues parses the body with the shared schema and
on failure responds 400 with the parse message, making no data-access call;
POST /api/issues/:id/comments, after the issue-existence read, parses and on
failure responds 400 having made only that read, creating nothing; PATCH
/api/issues/:id performs no body validation and always makes its updateIssue
call with the raw body (and the shared schemas never check enum membership,
as `bogusUpdate` shows). -/
theorem c7_validation_amended :
    (∀ (s : MemStorage) (b : RawIssueBody) (newId : String) (now : Nat)
        (m : String), parseInsertIssue b = Except.error m →
      postIssue s b newId now = (ApiResult.badRequest m, s, [])) ∧
    (∀ (s : MemStorage) (id : String) (b : RawCommentBody) (newId : String)
        (now : Nat) (i : Issue) (m : String),
      s.getIssue id = some i →
      parseInsertComment (setIssueId b id) = Except.error m →
      postComment s id b newId now =
        (ApiResult.badRequest m, s, [StorageCall.getIssueCall id])) ∧
    (∀ (s : MemStorage) (id : String) (u : IssueUpdates) (now : Nat),
      (patchIssue s id u now).2.2 = [StorageCall.updateIssueCall id]) := by
  refine ⟨?_, ?_, ?_⟩
  · intro s b newId now m hp
    unfold postIssue
    rw [hp]
  · intro s id b newId now i m hi hp
    unfold postComment
    rw [hi, hp]
  · intro s id u now
    unfold patchIssue
    cases hu : s.updateIssue id u now with
    | mk o s2 => cases o <;> rfl

/-- A submission missing its required title. -/
def noTitleBody : RawIssueBody :=
  { title := none, description := some "d", customerName := some "n"
    customerEmail := some "e", priority := none, status := none
    assignedTo := none }

/-- Witness for C7's amended theorem: a body without a title is rejected
with 400 and no data-access call. -/
theorem c7_validation_amended_witness :
    parseInsertIssue noTitleBody = Except.error "Required" ∧
    postIssue { issues := [], comments := [] } noTitleBody "x" 0 =
      (ApiResult.badRequest "Required", { issues := [], comments := [] }, []) :=
  ⟨rfl, c7_validation_amended.1 { issues := [], comments := [] } noTitleBody
    "x" 0 "Required" rfl⟩

/-- C8: getCommentsByIssueId returns exactly the comments owned by the given
issue id — a permutation of the filter of the comment store, so no more and
no less — ordered by created-at ascending. -/
theorem c8_getCommentsByIssueId_sorted (s : MemStorage) (x : String) :
    (s.getCommentsByIssueId x).Perm
      (s.comments.filter (fun c => c.issueId == x)) ∧
    (s.getCommentsByIssueId x).Pairwise
      (fun a b => a.createdAt ≤ b.createdAt) := by
  unfold MemStorage.getCommentsByIssueId
  constructor
  · exact List.mergeSort_perm _ _
  · have hs : ((s.comments.filter (fun c => c.issueId == x)).mergeSort
        (fun a b => decide (a.createdAt ≤ b.createdAt))).Pairwise
        (fun a b => decide (a.createdAt ≤ b.createdAt) = true) :=
      List.sorted_mergeSort
        (by
          intro a b c hab hbc
          simp only [decide_eq_true_eq] at hab hbc ⊢
          exact le_trans hab hbc)
        (by
          intro a b
          rcases Nat.le_total a.createdAt b.createdAt with h | h <;> simp [h])
        (s.comments.filter (fun c => c.issueId == x))
    exact List.Pairwise.imp (fun h => by simpa using h) hs

/-- Every member of the map after a `set` is either the new record or an
old one. -/
theorem mem_mapSetIssue {l : List Issue} {a x : Issue}
    (h : x ∈ mapSetIssue l a) : x = a ∨ x ∈ l := by
  unfold mapSetIssue at h
  split at h
  · obtain ⟨j, hj, he⟩ := List.mem_map.mp h
    by_cases hji : (j.id == a.id) = true
    · rw [if_pos hji] at he
      left
      exact he.symm
    · rw [if_neg hji] at he
      right
      exact he ▸ hj
  · rcases List.mem_append.mp h with h1 | h1
    · right; exact h1
    · left; simpa using h1

/-- States reachable from the empty store by createIssue and updateIssue
steps under a non-decreasing clock; the second index is the clock value of
the latest step. -/
inductive Reached : MemStorage → Nat → Prop where
  | init : Reached { issues := [], comments := [] } 0
  | createStep (s : MemStorage) (t : Nat) (ins : InsertIssue) (newId : String)
      (t2 : Nat) : Reached s t → t ≤ t2 →
      Reached (s.createIssue ins newId t2).2 t2
  | updateStep (s : MemStorage) (t : Nat) (id : String) (u : IssueUpdates)
      (t2 : Nat) : Reached s t → t ≤ t2 →
      Reached (s.updateIssue id u t2).2 t2

/-- Invariant of reachable stores: every issue has created-at ≤ updated-at,
and no updated-at lies beyond the clock. -/
theorem reached_inv (s : MemStorage) (t : Nat) (h : Reached s t) :
    ∀ i ∈ s.issues, i.createdAt ≤ i.updatedAt ∧ i.updatedAt ≤ t := by
  induction h with
  | init => intro i hi; cases hi
  | createStep s t ins newId t2 hr hle ih =>
    intro i hi
    rcases mem_mapSetIssue hi with rfl | hmem
    · exact ⟨Nat.le_refl _, Nat.le_refl _⟩
    · obtain ⟨h1, h2⟩ := ih i hmem
      exact ⟨h1, le_trans h2 hle⟩
  | updateStep s t id u t2 hr hle ih =>
    intro i hi
    cases hf : s.issues.find? (fun j => j.id == id) with
    | none =>
      have hu : s.updateIssue id u t2 = (none, s) := by
        unfold MemStorage.updateIssue
        rw [hf]
      rw [hu] at hi
      obtain ⟨h1, h2⟩ := ih i hi
      exact ⟨h1, le_trans h2 hle⟩
    | some i0 =>
      have hu : s.updateIssue id u t2 = (some (applyUpdates i0 u t2),
          { s with issues := mapSetIssue s.issues (applyUpdates i0 u t2) }) := by
        unfold MemStorage.updateIssue
        rw [hf]
      rw [hu] at hi
      rcases mem_mapSetIssue hi with rfl | hmem
      · obtain ⟨h1, h2⟩ := ih i0 (List.mem_of_find?_eq_some hf)
        constructor
        · show i0.createdAt ≤ t2
          exact le_trans h1 (le_trans h2 hle)
        · exact Nat.le_refl _
      · obtain ⟨h1, h2⟩ := ih i hmem
        exact ⟨h1, le_trans h2 hle⟩

/-- C9: in every state reachable by createIssue and updateIssue steps under
a non-decreasing clock, each issue satisfies created-at ≤ updated-at; and an
update of an existing issue never decreases its updated-at, which it
refreshes to the step's clock. -/
theorem c9_updatedAt_invariant :
    (∀ (s : MemStorage) (t : Nat), Reached s t →
      ∀ i ∈ s.issues, i.createdAt ≤ i.updatedAt) ∧
    (∀ (s : MemStorage) (t : Nat) (id : String) (u : IssueUpdates) (t2 : Nat)
        (i : Issue), Reached s t → t ≤ t2 → s.getIssue id = some i →
      (s.updateIssue id u t2).1 = some (applyUpdates i u t2) ∧
      i.updatedAt ≤ (applyUpdates i u t2).updatedAt) := by
  constructor
  · intro s t h i hi
    exact (reached_inv s t h i hi).1
  · intro s t id u t2 i hr hle hg
    constructor
    · rw [updateIssue_found s id u t2 i hg]
    · show i.updatedAt ≤ t2
      have hmem : i ∈ s.issues := by
        unfold MemStorage.getIssue at hg
        exact List.mem_of_find?_eq_some hg
      exact le_trans (reached_inv s t hr i hmem).2 hle

/-- A sample customer submission with every optional field omitted. -/
def sampleInsert : InsertIssue :=
  { title := "t", description := "d", customerName := "n"
    customerEmail := "e", priority := none, status := none
    assignedTo := none }

/-- Witness for C9: the store reached by one creation at clock 1 satisfies
the invariant. -/
theorem c9_updatedAt_invariant_witness :
    Reached (MemStorage.createIssue { issues := [], comments := [] }
      sampleInsert "a" 1).2 1 ∧
    (∀ i ∈ (MemStorage.createIssue { issues := [], comments := [] }
        sampleInsert "a" 1).2.issues, i.createdAt ≤ i.updatedAt) := by
  have hr : Reached (MemStorage.createIssue { issues := [], comments := [] }
      sampleInsert "a" 1).2 1 :=
    Reached.createStep { issues := [], comments := [] } 0 sampleInsert "a" 1
      Reached.init (Nat.zero_le 1)
  exact ⟨hr, c9_updatedAt_invariant.1 _ 1 hr⟩

/-- C10: when the parent issue exists and the body carries the required
author and content, POST /api/issues/:id/comments creates a comment whose
owning issue id is the id from the URL path, whatever issueId the body
supplied — the handler overwrites the body's issueId with the path
parameter before validation. -/
theorem c10_comment_issueId_from_path (s : MemStorage) (id : String)
    (b : RawCommentBody) (newId : String) (now : Nat) (i : Issue)
    (a c : String) (hg : s.getIssue id = some i) (ha : b.author = some a)
    (hc : b.content = some c) :
    parseInsertComment (setIssueId b id) =
      Except.ok { issueId := id, author := a, content := c
                  isInternal := b.isInternal } ∧
    ∃ cm s2 tr, postComment s id b newId now = (ApiResult.ok cm, s2, tr) ∧
      cm.issueId = id := by
  have hp : parseInsertComment (setIssueId b id) =
      Except.ok { issueId := id, author := a, content := c
                  isInternal := b.isInternal } := by
    unfold parseInsertComment setIssueId
    rw [ha, hc]
  have hres : postComment s id b newId now =
      (ApiResult.ok (s.createComment { issueId := id, author := a, content := c, isInternal := b.isInternal } newId now).1,
        (s.createComment { issueId := id, author := a, content := c, isInternal := b.isInternal } newId now).2,
        [StorageCall.getIssueCall id, StorageCall.createCommentCall]) := by
    unfold postComment
    rw [hg, hp]
  exact ⟨hp, _, _, _, hres, rfl⟩

/-- Witness for C10: a body claiming issueId "other" still yields a comment
owned by the path's issue "A". -/
theorem c10_comment_issueId_from_path_witness :
    (MemStorage.getIssue { issues := [issueA], comments := [] } "A" = some issueA) ∧
    ({ helloCommentBody with issueId := some "other" } : RawCommentBody).author = some "me" ∧
    ∃ cm s2 tr,
      postComment { issues := [issueA], comments := [] } "A"
          { helloCommentBody with issueId := some "other" } "c1" 9 =
        (ApiResult.ok cm, s2, tr) ∧ cm.issueId = "A" := by
  refine ⟨rfl, rfl, ?_⟩
  exact (c10_comment_issueId_from_path { issues := [issueA], comments := [] }
    "A" { helloCommentBody with issueId := some "other" } "c1" 9 issueA
    "me" "hi" rfl rfl rfl).2

end IssueTracker
